import Mathlib

/-!
# Verification of the esp32_automation control core

Shallow embedding of the debounced threshold-control state machine
(`components/sensors/control/sensor_control.c`) and of the grow-cycle
orchestrator (`components/grow_manager/grow_manager.c`).

Machine floats are modelled by `ℚ`; the decision value of
`control_check_sensor` keeps the source's `int` encoding
(`-1` = RequestLower, `0` = NoAction, `1` = RequestRaise).
Side effects of the orchestrator (task suspension, NVS writes, delays,
actuator hibernation) are modelled as an explicit event trace.
-/

/-- Debounce threshold `NUM_CHECKS`.  The macro lives in a header not part of
the sources; the spec fixes it at 5 and every claim uses that value. -/
def NUM_CHECKS : Nat := 5

/-- Countdown timer (`struct timer` of the ds3231 timer library). -/
structure timer where
  active : Bool
  start_time : ℚ
  duration : ℚ
  deriving DecidableEq

/-- Record for `struct sensor_control` (fields as used by `sensor_control.c`). -/
structure sensor_control where
  name : String
  is_control_enabled : Bool
  is_control_active : Bool
  is_doser : Bool
  target_value : ℚ
  margin_error : ℚ
  night_target_value : ℚ
  is_day_night_active : Bool
  sensor_checks : List Bool
  check_index : Nat
  dose_time : ℚ
  wait_time : ℚ
  dose_percentage : ℚ
  dose_timer : timer
  wait_timer : timer
  deriving DecidableEq

/-- Function control_reset_checks: clears the (NUM_CHECKS-sized) checks array and
the index. -/
def control_reset_checks (c : sensor_control) : sensor_control :=
  { c with sensor_checks := List.replicate NUM_CHECKS false, check_index := 0 }

/-- Function control_add_check: returns the updated control and the bool returned by
the C function (`true` means the debounce threshold fired). -/
def control_add_check (c : sensor_control) : sensor_control × Bool :=
  if c.check_index = NUM_CHECKS then
    (control_reset_checks c, true)
  else
    ({ c with sensor_checks := c.sensor_checks.set c.check_index true,
              check_index := c.check_index + 1 }, false)

/-- Function control_get_target_value; the flag is_day is the global day/night flag from
`rtc.h`, passed explicitly. -/
def control_get_target_value (is_day : Bool) (c : sensor_control) : ℚ :=
  if !is_day && c.is_day_night_active then c.night_target_value else c.target_value

/-- Function control_is_under_target. -/
def control_is_under_target (is_day : Bool) (c : sensor_control) (v : ℚ) : Bool :=
  decide (v < control_get_target_value is_day c - c.margin_error)

/-- Function control_is_over_target. -/
def control_is_over_target (is_day : Bool) (c : sensor_control) (v : ℚ) : Bool :=
  decide (v > control_get_target_value is_day c + c.margin_error)

/-- Function init_sensor_control. -/
def init_sensor_control (c : sensor_control) (name_in : String) (is_enabled_in : Bool)
    (target_value_in margin_error_in night_target_value_in : ℚ)
    (is_day_night_in : Bool) : sensor_control :=
  control_reset_checks
    { c with name := name_in,
             is_control_enabled := is_enabled_in,
             is_control_active := false,
             is_doser := false,
             target_value := target_value_in,
             margin_error := margin_error_in,
             night_target_value := night_target_value_in,
             is_day_night_active := is_day_night_in }

/-- Function init_doser_control. -/
def init_doser_control (c : sensor_control) (dose_time_in wait_time_in : ℚ) :
    sensor_control :=
  { c with is_doser := true,
           dose_time := dose_time_in,
           wait_time := wait_time_in,
           dose_percentage := 1 }

/-- Function control_enable. -/
def control_enable (c : sensor_control) : sensor_control :=
  { c with is_control_enabled := true }

/-- Function control_disable. -/
def control_disable (c : sensor_control) : sensor_control :=
  control_reset_checks
    { c with is_control_enabled := false,
             is_control_active := false,
             dose_timer := { c.dose_timer with active := false },
             wait_timer := { c.wait_timer with active := false } }

/-- Function control_check_sensor: the per-sample decision function.  Returns the
updated control and the C return value. -/
def control_check_sensor (is_day : Bool) (c : sensor_control) (v : ℚ) :
    sensor_control × Int :=
  if !c.is_control_enabled then (c, 0)
  else if c.is_control_active &&
          (c.is_doser && (c.dose_timer.active || c.wait_timer.active)) then (c, 0)
  else
    let under := control_is_under_target is_day c v
    let over := control_is_over_target is_day c v
    if under || over then
      match control_add_check c with
      | (c', true) => ({ c' with is_control_active := true }, if under then -1 else 1)
      | (c', false) =>
          (if c'.is_doser then c' else { c' with is_control_active := false }, 0)
    else
      let c' :=
        if c.check_index > 0 then
          control_reset_checks
            (if c.is_doser then { c with is_control_active := false } else c)
        else c
      (if c'.is_doser then c' else { c' with is_control_active := false }, 0)

/-- Modelled from the spec: `enable_timer` of the ds3231 timer library is not
in the sources; per §4.1 `arm(duration)` records the current time, stores the
duration unvalidated (durations are caller-validated) and sets `active`. -/
def enable_timer (now : ℚ) (t : timer) (duration_in : ℚ) : timer :=
  { t with active := true, start_time := now, duration := duration_in }

/-- Function control_get_dose_time. -/
def control_get_dose_time (c : sensor_control) : ℚ :=
  c.dose_time * c.dose_percentage

/-- Function control_start_dose_timer. -/
def control_start_dose_timer (now : ℚ) (c : sensor_control) : sensor_control :=
  { c with dose_timer := enable_timer now c.dose_timer (control_get_dose_time c) }

/-- Function control_start_wait_timer; the argument period_s stands for the macro expression
`SENSOR_MEASUREMENT_PERIOD / 1000` (the sample period in seconds, defined in a
header not part of the sources). -/
def control_start_wait_timer (period_s : ℚ) (now : ℚ) (c : sensor_control) :
    sensor_control :=
  { c with wait_timer :=
      enable_timer now c.wait_timer (c.wait_time - (NUM_CHECKS : ℚ) * period_s) }

/-- Function control_set_dose_percentage. -/
def control_set_dose_percentage (c : sensor_control) (value : ℚ) : sensor_control :=
  { c with dose_percentage := value }

/-- Feeding a list of samples through `control_check_sensor`, collecting the
decisions in order. -/
def control_run (is_day : Bool) (c : sensor_control) (vs : List ℚ) :
    sensor_control × List Int :=
  match vs with
  | [] => (c, [])
  | v :: rest =>
    let step := control_check_sensor is_day c v
    let rec_ := control_run is_day step.1 rest
    (rec_.1, step.2 :: rec_.2)

/-- An all-zero control record, standing for the zero-initialised C global the
init functions are called on. -/
def zero_control : sensor_control :=
  { name := "", is_control_enabled := false, is_control_active := false,
    is_doser := false, target_value := 0, margin_error := 0,
    night_target_value := 0, is_day_night_active := false,
    sensor_checks := List.replicate NUM_CHECKS false, check_index := 0,
    dose_time := 0, wait_time := 0, dose_percentage := 0,
    dose_timer := { active := false, start_time := 0, duration := 0 },
    wait_timer := { active := false, start_time := 0, duration := 0 } }

/-- The spec's worked example: enabled non-doser, target 6.0, margin 1.0. -/
def ph_example_control : sensor_control :=
  init_sensor_control zero_control "PH" true 6 1 6 false

/-- Tasks owned by the grow-cycle orchestrator (`grow_manager.c`), in the
order `suspend_tasks`/`resume_tasks` touch them. -/
inductive TaskId
  | timer_alarm
  | publish
  | sensor_control_task
  | water_temp
  | ec
  | ph
  | sync_task
  deriving DecidableEq

/-- NVS keys used by the orchestrator (`GROW_ACTIVE_KEY`,
`SETTINGS_RECEIVED_KEY`; the literal strings live in
`nvs_namespace_keys.h`, not part of the sources). -/
inductive NvsKey
  | grow_active_key
  | settings_received_key
  deriving DecidableEq

/-- Externally observable side effects of the orchestrator, in program
order. -/
inductive Event
  | task_suspend (t : TaskId)
  | task_resume (t : TaskId)
  | nvs_write (k : NvsKey) (v : Bool)
  | delay_ms (ms : Nat)
  | hibernate_ph
  | hibernate_ec
  deriving DecidableEq

/-- Predicate selecting task-suspension events. -/
def Event.is_suspend : Event → Bool
  | .task_suspend _ => true
  | _ => false

/-- Predicate selecting actuator-hibernation events. -/
def Event.is_hibernate : Event → Bool
  | .hibernate_ph => true
  | .hibernate_ec => true
  | _ => false

/-- Globals of `grow_manager.c` (and the pH/EC "activated" flags it
consults). -/
structure GrowState where
  is_settings_received : Bool
  is_grow_active : Bool
  is_ph_activated : Bool
  is_ec_activated : Bool
  deriving DecidableEq

/-- Order in which `suspend_tasks`/`resume_tasks` act on the task handles. -/
def ownedTasks : List TaskId :=
  [.timer_alarm, .publish, .sensor_control_task, .water_temp, .ec, .ph, .sync_task]

/-- Function suspend_tasks (trace of `vTaskSuspend` calls). -/
def suspend_tasks : List Event := ownedTasks.map .task_suspend

/-- Function resume_tasks (trace of `vTaskResume` calls). -/
def resume_tasks : List Event := ownedTasks.map .task_resume

/-- Function push_grow_status: persists `is_grow_active` under
`GROW_ACTIVE_KEY`. -/
def push_grow_status (s : GrowState) : List Event :=
  [.nvs_write .grow_active_key s.is_grow_active]

/-- Function push_grow_settings_status: persists `is_settings_received`. -/
def push_grow_settings_status (s : GrowState) : List Event :=
  [.nvs_write .settings_received_key s.is_settings_received]

/-- Function start_grow_cycle: refuses to start before settings arrive,
otherwise sets and persists `is_grow_active` and resumes every task. -/
def start_grow_cycle (s : GrowState) : GrowState × List Event :=
  if !s.is_settings_received then (s, [])
  else
    let s1 := { s with is_grow_active := true }
    (s1, push_grow_status s1 ++ resume_tasks)

/-- Function stop_grow_cycle: clears and persists `is_grow_active`, suspends
every task, waits 4000 ms, then hibernates whichever of the pH/EC actuators
was activated and clears its flag. -/
def stop_grow_cycle (s : GrowState) : GrowState × List Event :=
  let s1 := { s with is_grow_active := false }
  let ev1 := push_grow_status s1 ++ suspend_tasks ++ [.delay_ms 4000]
  let phStep : GrowState × List Event :=
    if s1.is_ph_activated then ({ s1 with is_ph_activated := false }, [.hibernate_ph])
    else (s1, [])
  let ecStep : GrowState × List Event :=
    if phStep.1.is_ec_activated then
      ({ phStep.1 with is_ec_activated := false }, [.hibernate_ec])
    else (phStep.1, [])
  (ecStep.1, ev1 ++ phStep.2 ++ ecStep.2)

/-- Function settings_received: marks settings as received and persists the
flag. -/
def settings_received (s : GrowState) : GrowState × List Event :=
  let s1 := { s with is_settings_received := true }
  (s1, push_grow_settings_status s1)

/-- A doser mid-dose (active, dose timer armed), used as a witness input. -/
def busy_doser : sensor_control :=
  { control_start_dose_timer 0 (init_doser_control ph_example_control 10 30) with
    is_control_active := true }

/-- C3: for an enabled, active doser whose dose timer or wait timer is
active, `control_check_sensor` returns NoAction and leaves the whole control
state unchanged. -/
theorem doser_busy_check_noop (day : Bool) (c : sensor_control) (v : ℚ)
    (hen : c.is_control_enabled = true) (hact : c.is_control_active = true)
    (hd : c.is_doser = true)
    (ht : (c.dose_timer.active || c.wait_timer.active) = true) :
    control_check_sensor day c v = (c, 0) := by
  simp [control_check_sensor, hen, hact, hd, ht]

/-- Witness for C3: a concrete enabled doser mid-dose ignores an out-of-range
sample. -/
theorem doser_busy_check_noop_witness :
    control_check_sensor false busy_doser 8 = (busy_doser, 0) :=
  doser_busy_check_noop false busy_doser 8 rfl rfl rfl rfl

/-- C5: a disabled control's check is a no-op returning NoAction, and
`control_disable` is idempotent and leaves the control disabled. -/
theorem disabled_check_noop_and_disable_idempotent :
    (∀ (day : Bool) (c : sensor_control) (v : ℚ), c.is_control_enabled = false →
        control_check_sensor day c v = (c, 0)) ∧
    (∀ c : sensor_control,
        control_disable (control_disable c) = control_disable c ∧
        (control_disable c).is_control_enabled = false) :=
  ⟨fun _ c _ h => by simp [control_check_sensor, h], fun _ => ⟨rfl, rfl⟩⟩

/-- Witness for C5 at a concrete disabled control and sample. -/
theorem disabled_check_noop_witness :
    control_check_sensor false (control_disable ph_example_control) 8 =
      (control_disable ph_example_control, 0) :=
  disabled_check_noop_and_disable_idempotent.1 false
    (control_disable ph_example_control) 8 rfl

/-- A doser whose configured wait time (2 s) is shorter than the debounce
period (5 samples of 1 s). -/
def short_wait_doser : sensor_control :=
  init_doser_control ph_example_control 10 2

/-- Counterexample to C4: with wait_time 2 and a 1-second sample period the
wait timer is armed for -3 seconds, not for max 0 (2 - 5) = 0: the negative
duration is passed through unclamped. -/
theorem wait_timer_underflow_not_clamped :
    ((control_start_wait_timer 1 0 short_wait_doser).wait_timer).duration = -3 ∧
    ((-3 : ℚ) ≠ max 0 (short_wait_doser.wait_time - (NUM_CHECKS : ℚ) * 1)) := by
  constructor
  · norm_num [control_start_wait_timer, enable_timer, short_wait_doser,
      init_doser_control, ph_example_control, init_sensor_control,
      control_reset_checks, zero_control, NUM_CHECKS]
  · norm_num [short_wait_doser, init_doser_control, ph_example_control,
      init_sensor_control, control_reset_checks, zero_control, NUM_CHECKS]

/-- C4 amended: `control_start_wait_timer` arms the wait timer for exactly
`wait_time - NUM_CHECKS * sample_period_seconds`, with no clamping of a
negative result. -/
theorem wait_timer_armed_duration (period_s now : ℚ) (c : sensor_control) :
    ((control_start_wait_timer period_s now c).wait_timer).active = true ∧
    ((control_start_wait_timer period_s now c).wait_timer).duration =
      c.wait_time - (NUM_CHECKS : ℚ) * period_s :=
  ⟨rfl, rfl⟩

/-- C7: when settings have not been received, `start_grow_cycle` changes no
state and emits no side effect (no persistence, no task resume). -/
theorem start_grow_cycle_requires_settings (s : GrowState)
    (h : s.is_settings_received = false) : start_grow_cycle s = (s, []) := by
  simp [start_grow_cycle, h]

/-- Witness for C7 at a concrete state with pending settings. -/
theorem start_grow_cycle_requires_settings_witness :
    start_grow_cycle ⟨false, true, false, false⟩ =
      (⟨false, true, false, false⟩, []) :=
  start_grow_cycle_requires_settings ⟨false, true, false, false⟩ rfl

/-- C8: `stop_grow_cycle` clears and persists the grow-active flag, emits a
suspension of every owned task strictly before any hibernate event, and
hibernates the pH (resp. EC) actuator exactly when its activated flag was
set, clearing the flag. -/
theorem stop_grow_cycle_spec (s : GrowState) :
    (stop_grow_cycle s).1.is_grow_active = false ∧
    Event.nvs_write NvsKey.grow_active_key false ∈ (stop_grow_cycle s).2 ∧
    (∀ t ∈ ownedTasks, Event.task_suspend t ∈ (stop_grow_cycle s).2) ∧
    (∀ i j : Fin (stop_grow_cycle s).2.length,
        ((stop_grow_cycle s).2.get i).is_suspend = true →
        ((stop_grow_cycle s).2.get j).is_hibernate = true → (i : ℕ) < (j : ℕ)) ∧
    (Event.hibernate_ph ∈ (stop_grow_cycle s).2 ↔ s.is_ph_activated = true) ∧
    (stop_grow_cycle s).1.is_ph_activated = false ∧
    (Event.hibernate_ec ∈ (stop_grow_cycle s).2 ↔ s.is_ec_activated = true) ∧
    (stop_grow_cycle s).1.is_ec_activated = false := by
  obtain ⟨sr, ga, hph, hec⟩ := s
  cases sr <;> cases ga <;> cases hph <;> cases hec <;> decide

/-- Witness for C8: in a fully-active state the publish task is among the
suspended tasks of the stop trace. -/
theorem stop_grow_cycle_spec_witness :
    Event.task_suspend TaskId.publish ∈ (stop_grow_cycle ⟨true, true, true, true⟩).2 :=
  (stop_grow_cycle_spec ⟨true, true, true, true⟩).2.2.1 TaskId.publish (by decide)

/-- A doser mid-dose whose dose timer is armed, fed to init. -/
def mid_dose_doser : sensor_control :=
  control_start_dose_timer 0 (init_doser_control ph_example_control 10 30)

/-- Counterexample to C9: `init_sensor_control` called on a control whose
dose timer is armed leaves that timer armed — the timers are not disarmed. -/
theorem init_sensor_control_keeps_armed_timer :
    ((init_sensor_control mid_dose_doser "PH" true 6 1 6 false).dose_timer).active
      = true := rfl

/-- C9 amended: `init_sensor_control` clears the debounce counter and checks
array and the active flag, but leaves both timers exactly as they were. -/
theorem init_sensor_control_resets_runtime_state (c : sensor_control)
    (nm : String) (en : Bool) (t m nt : ℚ) (dn : Bool) :
    (init_sensor_control c nm en t m nt dn).check_index = 0 ∧
    (init_sensor_control c nm en t m nt dn).sensor_checks =
      List.replicate NUM_CHECKS false ∧
    (init_sensor_control c nm en t m nt dn).is_control_active = false ∧
    (init_sensor_control c nm en t m nt dn).dose_timer = c.dose_timer ∧
    (init_sensor_control c nm en t m nt dn).wait_timer = c.wait_timer :=
  ⟨rfl, rfl, rfl, rfl, rfl⟩

/-- Counterexample to C2: on the spec's own example the triggering call (the
sixth sample of 8.0) returns RequestRaise and leaves the non-doser's active
flag true, not false. -/
theorem nondoser_active_after_trigger :
    (control_run false ph_example_control (List.replicate 6 8)).2 =
      [0, 0, 0, 0, 0, 1] ∧
    ((control_run false ph_example_control (List.replicate 6 8)).1).is_control_active
      = true := by
  constructor <;>
    norm_num [control_run, control_check_sensor, control_is_under_target,
      control_is_over_target, control_get_target_value, control_add_check,
      control_reset_checks, ph_example_control, init_sensor_control,
      zero_control, NUM_CHECKS, List.replicate, List.set]

/-- C2 amended: for an enabled non-doser, the active flag after a check call
is true exactly when that call returned a triggering decision; it never
persists past the next call (which recomputes it). -/
theorem nondoser_active_iff_triggered (day : Bool) (c : sensor_control) (v : ℚ)
    (hd : c.is_doser = false) (hen : c.is_control_enabled = true) :
    ((control_check_sensor day c v).1.is_control_active = true ↔
      (control_check_sensor day c v).2 ≠ 0) := by
  rcases h1 : control_is_under_target day c v with _ | _ <;>
  rcases h2 : control_is_over_target day c v with _ | _ <;>
  by_cases hidx : c.check_index = NUM_CHECKS <;>
  simp [control_check_sensor, control_add_check, control_reset_checks,
    apply_ite, hen, hd, h1, h2, hidx]

/-- Witness for the amended C2 at a concrete enabled non-doser and an
in-range sample. -/
theorem nondoser_active_iff_triggered_witness :
    ((control_check_sensor false ph_example_control 6).1.is_control_active = true ↔
      (control_check_sensor false ph_example_control 6).2 ≠ 0) :=
  nondoser_active_iff_triggered false ph_example_control 6 rfl rfl

/-- C10: init_doser_control sets the dose percentage to 1, so the dose time
is the full configured one, start_dose arms the dose timer for the full
duration, and check calls never change the stored percentage. -/
theorem init_doser_full_dose (c : sensor_control) (dt wt now : ℚ) :
    (init_doser_control c dt wt).dose_percentage = 1 ∧
    control_get_dose_time (init_doser_control c dt wt) = dt ∧
    ((control_start_dose_timer now (init_doser_control c dt wt)).dose_timer).active
      = true ∧
    ((control_start_dose_timer now (init_doser_control c dt wt)).dose_timer).duration
      = dt ∧
    (∀ (day : Bool) (v : ℚ),
        ((control_check_sensor day c v).1).dose_percentage = c.dose_percentage) := by
  refine ⟨rfl, mul_one dt, rfl, mul_one dt, ?_⟩
  intro day v
  obtain ⟨nm, en, act, dsr, tv, me, ntv, dn, chk, idx, dtv, wtv, dp, dtm, wtm⟩ := c
  by_cases hidx : idx = NUM_CHECKS <;>
    simp only [control_check_sensor, control_add_check, control_reset_checks,
      hidx, if_true, if_false, ite_true, ite_false] <;>
    repeat' split <;>
    simp_all

set_option maxRecDepth 20000 in
/-- C6: starting from a zero debounce counter, any six consecutive
out-of-range samples — however they alternate between under- and over-target
— give NoAction five times and then trigger, the direction being decided by
the last sample alone; the trigger resets the counter and sets the active
flag. -/
theorem oscillating_samples_trigger_last_direction (day : Bool)
    (c : sensor_control) (v1 v2 v3 v4 v5 v6 : ℚ)
    (hen : c.is_control_enabled = true) (hact : c.is_control_active = false)
    (hidx : c.check_index = 0)
    (h1 : (control_is_under_target day c v1 || control_is_over_target day c v1) = true)
    (h2 : (control_is_under_target day c v2 || control_is_over_target day c v2) = true)
    (h3 : (control_is_under_target day c v3 || control_is_over_target day c v3) = true)
    (h4 : (control_is_under_target day c v4 || control_is_over_target day c v4) = true)
    (h5 : (control_is_under_target day c v5 || control_is_over_target day c v5) = true)
    (h6 : (control_is_under_target day c v6 || control_is_over_target day c v6) = true) :
    control_run day c [v1, v2, v3, v4, v5, v6] =
      ({ c with sensor_checks := List.replicate NUM_CHECKS false,
                check_index := 0, is_control_active := true },
       [0, 0, 0, 0, 0, if control_is_under_target day c v6 then -1 else 1]) := by
  obtain ⟨nm, en, act, dsr, tv, me, ntv, dn, chk, idx, dtv, wtv, dp, dtm, wtm⟩ := c
  simp only [] at hen hact hidx
  subst hen hact hidx
  simp [control_is_under_target, control_is_over_target,
    control_get_target_value] at h1 h2 h3 h4 h5 h6
  simp [control_run, control_check_sensor, control_add_check,
    control_reset_checks, control_is_under_target, control_is_over_target,
    control_get_target_value, h1, h2, h3, h4, h5, h6, NUM_CHECKS, List.set]

/-- Witness for C6: oscillating out-of-range samples 8,4,8,4,8,4 on the
spec's example control trigger on the sixth sample in the direction of the
last (under-target) sample. -/
theorem oscillating_samples_trigger_last_direction_witness :
    control_run false ph_example_control [8, 4, 8, 4, 8, 4] =
      ({ ph_example_control with
          sensor_checks := List.replicate NUM_CHECKS false,
          check_index := 0, is_control_active := true },
       [0, 0, 0, 0, 0,
        if control_is_under_target false ph_example_control 4 then -1 else 1]) :=
  oscillating_samples_trigger_last_direction false ph_example_control 8 4 8 4 8 4
    rfl rfl rfl
    (by norm_num [control_is_under_target, control_is_over_target,
      control_get_target_value, ph_example_control, init_sensor_control,
      control_reset_checks, zero_control])
    (by norm_num [control_is_under_target, control_is_over_target,
      control_get_target_value, ph_example_control, init_sensor_control,
      control_reset_checks, zero_control])
    (by norm_num [control_is_under_target, control_is_over_target,
      control_get_target_value, ph_example_control, init_sensor_control,
      control_reset_checks, zero_control])
    (by norm_num [control_is_under_target, control_is_over_target,
      control_get_target_value, ph_example_control, init_sensor_control,
      control_reset_checks, zero_control])
    (by norm_num [control_is_under_target, control_is_over_target,
      control_get_target_value, ph_example_control, init_sensor_control,
      control_reset_checks, zero_control])
    (by norm_num [control_is_under_target, control_is_over_target,
      control_get_target_value, ph_example_control, init_sensor_control,
      control_reset_checks, zero_control])

/-- Counterexample to C1: on the spec's example (margin 1.0, target 6.0,
five samples of 8.0 from a zero counter) the fifth call still returns
NoAction — the code needs a sixth out-of-range sample to trigger. -/
theorem fifth_sample_returns_no_action :
    (control_run false ph_example_control (List.replicate 5 8)).2 =
      [0, 0, 0, 0, 0] ∧
    ([0, 0, 0, 0, 0] : List Int) ≠ [0, 0, 0, 0, 1] := by
  constructor
  · norm_num [control_run, control_check_sensor, control_is_under_target,
      control_is_over_target, control_get_target_value, control_add_check,
      control_reset_checks, ph_example_control, init_sensor_control,
      zero_control, NUM_CHECKS, List.replicate, List.set]
  · decide

set_option maxRecDepth 20000 in
/-- C1 amended: from a zero debounce counter, six consecutive identical
out-of-range (over-target) samples return NoAction on the first five calls
and RequestRaise on the sixth; that triggering call resets the counter to 0
and sets the active flag. -/
theorem six_samples_trigger_on_sixth (day : Bool) (c : sensor_control) (v : ℚ)
    (hen : c.is_control_enabled = true) (hact : c.is_control_active = false)
    (hidx : c.check_index = 0)
    (hover : control_is_over_target day c v = true)
    (hunder : control_is_under_target day c v = false) :
    control_run day c (List.replicate 6 v) =
      ({ c with sensor_checks := List.replicate NUM_CHECKS false,
                check_index := 0, is_control_active := true },
       [0, 0, 0, 0, 0, 1]) := by
  obtain ⟨nm, en, act, dsr, tv, me, ntv, dn, chk, idx, dtv, wtv, dp, dtm, wtm⟩ := c
  simp only [] at hen hact hidx
  subst hen hact hidx
  simp [control_is_under_target, control_is_over_target,
    control_get_target_value] at hover hunder
  simp [control_run, control_check_sensor, control_add_check,
    control_reset_checks, control_is_under_target, control_is_over_target,
    control_get_target_value, hover, hunder, NUM_CHECKS, List.set,
    List.replicate]

/-- Witness for the amended C1 on the spec's example control with six
samples of 8.0. -/
theorem six_samples_trigger_on_sixth_witness :
    control_run false ph_example_control (List.replicate 6 8) =
      ({ ph_example_control with
          sensor_checks := List.replicate NUM_CHECKS false,
          check_index := 0, is_control_active := true },
       [0, 0, 0, 0, 0, 1]) :=
  six_samples_trigger_on_sixth false ph_example_control 8 rfl rfl rfl
    (by norm_num [control_is_over_target, control_get_target_value,
      ph_example_control, init_sensor_control, control_reset_checks,
      zero_control])
    (by norm_num [control_is_under_target, control_get_target_value,
      ph_example_control, init_sensor_control, control_reset_checks,
      zero_control])
